import Mathlib

/-!
Shallow embedding of `src/lib/Sema/TypeCheckDistributed.cpp` (Swift compiler,
distributed-actor semantic checks) and proofs of the specification claims.

Modelling conventions:
* Types (`swift::Type`) are atoms carrying the outcomes of the black-box
  queries the source performs on them: `isVoid`, and conformance to the
  `Encodable`, `Decodable` and `ActorTransport` protocols relative to the
  (fixed) parent module.  `Type::isEqual` is structural equality of atoms.
* `mapTypeIntoContext` is the identity on these atoms (contextual resolution
  is a black box; the atoms already stand for the resolved contextual types).
* Diagnostic emission is made explicit: every checker returns the list of
  diagnostics it emits, in emission order.
* The `assert(actorDecl && actorDecl->isDistributedActor())` in
  `checkDistributedFunction` is modelled with `Except`: `.error ()` is an
  assertion failure, `.ok` the normal return value.
* The ambient `ASTContext` is the record of the facts the source reads from
  `C`: whether the `_Distributed` module is loaded, the declared interface
  type of the `ActorTransport` protocol, and the two well-known identifiers
  `Id_actorTransport` and `Id_id`.
-/

/-- A (contextual) Swift type, abstracted to the queries the source makes:
`tid` is the identity used by `Type::isEqual`, the other fields record the
results of `isVoid` and of `TypeChecker::conformsToProtocol` against the
three protocols involved. -/
structure Ty where
  tid : Nat
  isVoid : Bool
  conformsEncodable : Bool
  conformsDecodable : Bool
  conformsActorTransport : Bool
deriving DecidableEq, Repr

/-- A parameter declaration: its argument label and its declared type. -/
structure ParamDecl where
  argumentName : String
  interfaceType : Ty
deriving DecidableEq, Repr

/-- Diagnostics this file can emit (`diag::...` kinds with their payloads). -/
inductive Diag where
  | missingModule
  | paramNotCodable (argumentName : String) (ty : Ty)
  | resultNotCodable (ty : Ty)
  | remoteFuncImplementedManually (baseName : String) (expectedName : String)
  | missingTransportParam (ctorName : String)
  | mustHaveOneTransportParam (ctorName : String) (count : Nat)
  | userDefinedSpecialProperty (id : String)
deriving DecidableEq, Repr

/-- A constructor declaration (`ConstructorDecl`). -/
structure CtorDecl where
  name : String
  isDesignatedInit : Bool
  params : List ParamDecl
deriving DecidableEq, Repr

/-- A member of a class declaration body, as distinguished by the
`dyn_cast`s in the source: a `VarDecl` (with its identifier), a
`ConstructorDecl`, or anything else. -/
inductive Member where
  | varMember (name : String)
  | ctorMember (ctor : CtorDecl)
  | otherMember
deriving DecidableEq, Repr

/-- A class declaration (`ClassDecl`): whether it is written
`distributed actor`, and its members in declaration order. -/
structure ClassDeclData where
  isExplicitDistributedActor : Bool
  members : List Member
deriving DecidableEq, Repr

/-- A protocol declaration, abstracted to the two facts
`IsDistributedActorRequest::evaluate` reads: whether it is the well-known
`DistributedActor` protocol itself and whether it transitively inherits it. -/
structure ProtocolDeclData where
  isDistributedActorProto : Bool
  inheritsFromDistributedActor : Bool
deriving DecidableEq, Repr

/-- A nominal type declaration, as discriminated by the source's
`dyn_cast<ProtocolDecl>` / `dyn_cast<ClassDecl>`. -/
inductive NominalTypeDecl where
  | protocolDecl (p : ProtocolDeclData)
  | classDecl (c : ClassDeclData)
  | otherNominal
deriving DecidableEq, Repr

/-- The result of `lookupDirectRemoteFunc`: the `_remote` counterpart
declaration, of which the source only reads `isSynthesized`. -/
structure RemoteFunc where
  isSynthesized : Bool
deriving DecidableEq, Repr

/-- The parent declaration context of a function, as seen through
`dyn_cast<ClassDecl>(func->getParent())`; when it is a class we also carry
the (deterministic) result of `lookupDirectRemoteFunc` for this function. -/
inductive ParentDecl where
  | classParent (c : ClassDeclData) (remoteFunc : Option RemoteFunc)
  | otherParent
deriving DecidableEq, Repr

/-- A function declaration (`FuncDecl`), abstracted to the fields the source
reads: base name, parameters, declared result type, parent context, and the
presence of the explicit `distributed` attribute. -/
structure FuncDecl where
  baseIdentifier : String
  params : List ParamDecl
  resultInterfaceType : Ty
  parent : ParentDecl
  hasDistributedAttr : Bool
deriving DecidableEq, Repr

/-- The ambient `ASTContext` facts read by the source: whether the
`_Distributed` module is loaded, the declared interface type of the
`ActorTransport` protocol, and the two reserved identifiers. -/
structure ASTContext where
  distributedModuleLoaded : Bool
  actorTransportTy : Ty
  Id_actorTransport : String
  Id_id : String
deriving DecidableEq, Repr

/-- `DistributedModuleIsAvailableRequest::evaluate`: true when the
`_Distributed` module is loaded; otherwise emits the explicit-import
diagnostic and returns false. -/
def DistributedModuleIsAvailableRequest.evaluate (ctx : ASTContext) :
    Bool × List Diag :=
  if ctx.distributedModuleLoaded then (true, [])
  else (false, [Diag.missingModule])

/-- `IsDistributedActorRequest::evaluate`: protocols are distributed actors
when they are, or inherit from, `DistributedActor`; classes when declared
`distributed actor`; every other nominal is not. -/
def IsDistributedActorRequest.evaluate : NominalTypeDecl → Bool
  | NominalTypeDecl.protocolDecl p =>
      p.isDistributedActorProto || p.inheritsFromDistributedActor
  | NominalTypeDecl.classDecl c => c.isExplicitDistributedActor
  | NominalTypeDecl.otherNominal => false

/-- `ClassDecl::isDistributedActor`, i.e. the classification request
evaluated at a class declaration. -/
def ClassDeclData.isDistributedActor (c : ClassDeclData) : Bool :=
  IsDistributedActorRequest.evaluate (NominalTypeDecl.classDecl c)

/-- `IsDistributedFuncRequest::evaluate`: true iff the explicit
`distributed` attribute is present. -/
def IsDistributedFuncRequest.evaluate (func : FuncDecl) : Bool :=
  func.hasDistributedAttr

/-- Whether a parameter fails the Codable contract, exactly the condition of
the early-return in the parameter loop of `checkDistributedFunction`:
either conformance query (Encodable, Decodable) is invalid. -/
def ParamDecl.failsCodable (p : ParamDecl) : Bool :=
  !p.interfaceType.conformsEncodable || !p.interfaceType.conformsDecodable

/-- The `assert(actorDecl && actorDecl->isDistributedActor())` condition in
`checkDistributedFunction`: the parent is a class classified as a
distributed actor. -/
def distributedFuncAssert (func : FuncDecl) : Bool :=
  match func.parent with
  | ParentDecl.classParent c _ => c.isDistributedActor
  | ParentDecl.otherParent => false

/-- `swift::checkDistributedFunction(func, diagnose)`.  Returns
`.ok (problemFound, emittedDiagnostics)`; `.error ()` models a failure of
the assertion on the parent declaration.  Mirrors the source order: the
parameter loop (stopping at the first non-Codable parameter), then the
result type (checked only when not void), then the `_remote` counterpart. -/
def checkDistributedFunction (func : FuncDecl) (diagnose : Bool) :
    Except Unit (Bool × List Diag) :=
  match func.params.find? ParamDecl.failsCodable with
  | some param =>
      Except.ok (true,
        if diagnose then
          [Diag.paramNotCodable param.argumentName param.interfaceType]
        else [])
  | none =>
      let resultType := func.resultInterfaceType
      if !resultType.isVoid &&
          (!resultType.conformsDecodable || !resultType.conformsEncodable) then
        Except.ok (true,
          if diagnose then [Diag.resultNotCodable func.resultInterfaceType]
          else [])
      else
        match func.parent with
        | ParentDecl.classParent c remoteFuncDecl =>
            if !c.isDistributedActor then Except.error ()
            else
              match remoteFuncDecl with
              | some r =>
                  if !r.isSynthesized then
                    Except.ok (true,
                      if diagnose then
                        [Diag.remoteFuncImplementedManually func.baseIdentifier
                          ("_remote_" ++ func.baseIdentifier)]
                      else [])
                  else Except.ok (false, [])
              | none => Except.ok (false, [])
        | ParentDecl.otherParent => Except.error ()

/-- `swift::checkDistributedActorProperties(decl)`: for every member that is
a `VarDecl` whose identifier is `Id_actorTransport` or `Id_id`, emit the
reserved-property diagnostic; other members emit nothing. -/
def checkDistributedActorProperties (ctx : ASTContext) (decl : ClassDeclData) :
    List Diag :=
  decl.members.flatMap fun member =>
    match member with
    | Member.varMember id =>
        if id = ctx.Id_actorTransport || id = ctx.Id_id then
          [Diag.userDefinedSpecialProperty id]
        else []
    | _ => []

/-- The transport-matching test in the parameter loop of
`checkDistributedActorConstructor`:
`paramTy->isEqual(protocolTy) || !conformance.isInvalid()`. -/
def isTransportParam (ctx : ASTContext) (p : ParamDecl) : Bool :=
  p.interfaceType = ctx.actorTransportTy ||
    p.interfaceType.conformsActorTransport

/-- `swift::checkDistributedActorConstructor(decl, ctor)`: bails out unless
the class is a distributed actor and the constructor designated; then counts
the transport-capable parameters and diagnoses count 0 and counts ≥ 2. -/
def checkDistributedActorConstructor (ctx : ASTContext) (decl : ClassDeclData)
    (ctor : CtorDecl) : List Diag :=
  if !decl.isDistributedActor then []
  else if !ctor.isDesignatedInit then []
  else
    let transportParams := ctor.params.filter (isTransportParam ctx)
    let transportParamsCount := transportParams.length
    if transportParamsCount = 0 then [Diag.missingTransportParam ctor.name]
    else if transportParamsCount = 1 then []
    else [Diag.mustHaveOneTransportParam ctor.name transportParamsCount]

/-- Observable events of the orchestrator `TypeChecker::checkDistributedActor`:
emitted diagnostics and the two external synthesis triggers
(`getDefaultInitializer`, `addImplicitDistributedActorMembersToClass`). -/
inductive Event where
  | diag (d : Diag)
  | getDefaultInitializer
  | synthesizeImplicitMembers
deriving DecidableEq, Repr

/-- `TypeChecker::checkDistributedActor(decl)`: run the availability gate
(returning early when the `_Distributed` module is missing), then trigger
default-initializer creation, check every constructor member, check the
properties, and trigger implicit-member synthesis. -/
def checkDistributedActor (ctx : ASTContext) (decl : ClassDeclData) :
    List Event :=
  match DistributedModuleIsAvailableRequest.evaluate ctx with
  | (false, ds) => ds.map Event.diag
  | (true, ds) =>
      ds.map Event.diag
        ++ [Event.getDefaultInitializer]
        ++ (decl.members.flatMap fun member =>
              match member with
              | Member.ctorMember ctor =>
                  (checkDistributedActorConstructor ctx decl ctor).map
                    Event.diag
              | _ => [])
        ++ (checkDistributedActorProperties ctx decl).map Event.diag
        ++ [Event.synthesizeImplicitMembers]

-- ==== Spec-side definitions (written from the specification's words) =========

/-- Spec-side (P3): the constructor-check outcome as a pure function of the
number of transport-capable parameters: 0 → missing-transport diagnostic,
1 → success, ≥ 2 → must-have-exactly-one diagnostic carrying the count. -/
def constructorOutcomeOfCount (ctorName : String) : Nat → List Diag
  | 0 => [Diag.missingTransportParam ctorName]
  | 1 => []
  | n + 2 => [Diag.mustHaveOneTransportParam ctorName (n + 2)]

/-- Spec-side: the number of parameters whose contextual type equals the
transport protocol's declared interface type or conforms to that protocol. -/
def transportMatchCount (ctx : ASTContext) (params : List ParamDecl) : Nat :=
  params.countP (isTransportParam ctx)

/-- Spec-side: whether a member is a property using a reserved identifier. -/
def Member.isReservedVar (ctx : ASTContext) : Member → Bool
  | Member.varMember id => id = ctx.Id_actorTransport || id = ctx.Id_id
  | _ => false

/-- Spec-side (P5): one reserved-property diagnostic per property member
whose identifier is reserved, in member order, nothing else. -/
def reservedPropertyDiags (ctx : ASTContext) (members : List Member) :
    List Diag :=
  members.filterMap fun member =>
    match member with
    | Member.varMember id =>
        if id = ctx.Id_actorTransport || id = ctx.Id_id then
          some (Diag.userDefinedSpecialProperty id)
        else none
    | _ => none

-- ==== Claim theorems =========================================================

/-- C5: `isDistributedActor` is true exactly for a protocol that is, or
transitively inherits, the well-known `DistributedActor` protocol, and for a
class carrying the explicit `distributed actor` marker; false for every other
declaration shape.  (The evaluation returns a plain `Bool`: in this model it
is a pure function, so it emits no diagnostics and is idempotent.) -/
theorem isDistributedActor_characterization (n : NominalTypeDecl) :
    IsDistributedActorRequest.evaluate n = true ↔
      ((∃ p, n = NominalTypeDecl.protocolDecl p ∧
          (p.isDistributedActorProto = true ∨
            p.inheritsFromDistributedActor = true)) ∨
        (∃ c, n = NominalTypeDecl.classDecl c ∧
          c.isExplicitDistributedActor = true)) := by
  cases n <;> simp [IsDistributedActorRequest.evaluate]

/-- C1: the constructor check is a no-op unless the owner is a distributed
actor and the constructor a designated initializer, and in that case its
outcome is the pure function `constructorOutcomeOfCount` of the number of
transport-capable parameters. -/
theorem checkDistributedActorConstructor_spec (ctx : ASTContext)
    (decl : ClassDeclData) (ctor : CtorDecl) :
    checkDistributedActorConstructor ctx decl ctor =
      if decl.isDistributedActor && ctor.isDesignatedInit then
        constructorOutcomeOfCount ctor.name
          (transportMatchCount ctx ctor.params)
      else [] := by
  have houtcome : ∀ (nm : String) (n : Nat),
      (if n = 0 then [Diag.missingTransportParam nm]
        else if n = 1 then ([] : List Diag)
        else [Diag.mustHaveOneTransportParam nm n]) =
        constructorOutcomeOfCount nm n := by
    intro nm n
    rcases n with _ | _ | n <;> simp [constructorOutcomeOfCount]
  unfold checkDistributedActorConstructor
  rw [transportMatchCount, List.countP_eq_length_filter]
  cases decl.isDistributedActor <;> cases ctor.isDesignatedInit <;>
    simp only [Bool.not_true, Bool.not_false, Bool.false_and, Bool.true_and,
      Bool.and_false, Bool.and_true, if_true, if_false, Bool.false_eq_true,
      ite_false, ite_true]
  exact houtcome ctor.name _

/-- C7: the property check emits exactly the reserved-property diagnostics
described by `reservedPropertyDiags` — one per property member with a
reserved identifier, scanning the whole member list, nothing for other
members — and the number of diagnostics equals the number of such members. -/
theorem checkDistributedActorProperties_spec (ctx : ASTContext)
    (decl : ClassDeclData) :
    checkDistributedActorProperties ctx decl =
        reservedPropertyDiags ctx decl.members ∧
      (checkDistributedActorProperties ctx decl).length =
        decl.members.countP (Member.isReservedVar ctx) := by
  have h : ∀ ms : List Member,
      (ms.flatMap fun member =>
        match member with
        | Member.varMember id =>
            if id = ctx.Id_actorTransport || id = ctx.Id_id then
              [Diag.userDefinedSpecialProperty id]
            else []
        | _ => []) = reservedPropertyDiags ctx ms := by
    intro ms
    induction ms with
    | nil => simp [reservedPropertyDiags]
    | cons m ms ih =>
        cases m <;>
          simp [reservedPropertyDiags, List.filterMap_cons] at ih ⊢ <;>
          [skip; exact ih; exact ih]
        split <;> simp [ih]
  have hc : ∀ ms : List Member,
      (reservedPropertyDiags ctx ms).length =
        ms.countP (Member.isReservedVar ctx) := by
    intro ms
    induction ms with
    | nil => simp [reservedPropertyDiags]
    | cons m ms ih =>
        cases m with
        | varMember id =>
            by_cases hid : id = ctx.Id_actorTransport ∨ id = ctx.Id_id <;>
              simp [reservedPropertyDiags, List.filterMap_cons,
                List.countP_cons, Member.isReservedVar, hid] at ih ⊢ <;>
              exact ih
        | ctorMember ctor =>
            simp [reservedPropertyDiags, List.filterMap_cons,
              List.countP_cons, Member.isReservedVar] at ih ⊢
            exact ih
        | otherMember =>
            simp [reservedPropertyDiags, List.filterMap_cons,
              List.countP_cons, Member.isReservedVar] at ih ⊢
            exact ih
  exact ⟨h decl.members, by rw [checkDistributedActorProperties, h decl.members]; exact hc decl.members⟩

-- ==== Helper definitions and lemmas for the function-validator claims ========

/-- `func` with its explicit `distributed` attribute replaced. -/
def setDistributedAttr (func : FuncDecl) (b : Bool) : FuncDecl :=
  { func with hasDistributedAttr := b }

/-- `func` with the Encodable/Decodable conformance answers for its result
type replaced (its identity and voidness unchanged). -/
def setResultConformance (func : FuncDecl) (be bd : Bool) : FuncDecl :=
  { func with resultInterfaceType :=
      { func.resultInterfaceType with
          conformsEncodable := be
          conformsDecodable := bd } }

/-- Spec-side: the result type passes the Codable contract — it is void, or
conforms to both Decodable and Encodable. -/
def resultPassesCodable (func : FuncDecl) : Bool :=
  func.resultInterfaceType.isVoid ||
    (func.resultInterfaceType.conformsDecodable &&
      func.resultInterfaceType.conformsEncodable)

/-- Spec-side: a `_remote` counterpart is "manual" when it exists and is not
compiler-synthesized. -/
def remoteIsManual : Option RemoteFunc → Bool
  | some r => !r.isSynthesized
  | none => false

theorem find_first_of_split {α : Type} (q : α → Bool) (pre : List α) (x : α)
    (post : List α) (hpre : ∀ y ∈ pre, q y = false) (hx : q x = true) :
    (pre ++ x :: post).find? q = some x := by
  induction pre with
  | nil => simp [List.find?_cons, hx]
  | cons a pre ih =>
      have ha : q a = false := hpre a (by simp)
      have h : (pre ++ x :: post).find? q = some x :=
        ih fun y hy => hpre y (by simp [hy])
      simp [List.find?_cons, ha, h]

theorem find_none_of_all_pass (func : FuncDecl)
    (hp : ∀ p ∈ func.params, p.failsCodable = false) :
    func.params.find? ParamDecl.failsCodable = none :=
  List.find?_eq_none.mpr fun x hx => by simp [hp x hx]

-- ==== Claim theorems for the function validator ==============================

/-- C8: `checkDistributedFunction` returns the same verdict for
`diagnose = false` and `diagnose = true`; the `diagnose = false` run is the
`diagnose = true` run with its diagnostics erased. -/
theorem checkDistributedFunction_diagnose_irrelevant (func : FuncDecl) :
    (checkDistributedFunction func false).map Prod.fst =
        (checkDistributedFunction func true).map Prod.fst ∧
      checkDistributedFunction func false =
        (checkDistributedFunction func true).map fun r =>
          (r.1, ([] : List Diag)) := by
  have h : checkDistributedFunction func false =
      (checkDistributedFunction func true).map fun r =>
        (r.1, ([] : List Diag)) := by
    unfold checkDistributedFunction
    cases func.params.find? ParamDecl.failsCodable <;> dsimp only <;>
      (repeat' split) <;> first
      | contradiction
      | simp [Except.map]
  refine ⟨?_, h⟩
  rw [h]
  cases checkDistributedFunction func true <;> simp [Except.map]

/-- C2: when every parameter passes the Codable checks, a void result type
is never conformance-checked and never causes failure (the outcome is
independent of the result type's Encodable/Decodable answers), while a
non-void result type failing Decodable or Encodable makes the check report
a problem, diagnosing (only under `diagnose`) the declared result type. -/
theorem checkDistributedFunction_result_spec (func : FuncDecl)
    (diagnose be bd : Bool)
    (hp : ∀ p ∈ func.params, p.failsCodable = false) :
    (func.resultInterfaceType.isVoid = true →
      checkDistributedFunction (setResultConformance func be bd) diagnose =
        checkDistributedFunction func diagnose) ∧
    (func.resultInterfaceType.isVoid = false →
      (!func.resultInterfaceType.conformsDecodable ||
          !func.resultInterfaceType.conformsEncodable) = true →
      checkDistributedFunction func diagnose =
        Except.ok (true,
          if diagnose then [Diag.resultNotCodable func.resultInterfaceType]
          else [])) := by
  have hfind : func.params.find? ParamDecl.failsCodable = none :=
    find_none_of_all_pass func hp
  have hfind' : (setResultConformance func be bd).params.find?
      ParamDecl.failsCodable = none := hfind
  constructor
  · intro hv
    unfold checkDistributedFunction
    rw [hfind, hfind']
    dsimp only [setResultConformance]
    rw [hv]
    simp
  · intro hv hfail
    unfold checkDistributedFunction
    rw [hfind]
    simp [hv, hfail]

/-- C3: when the parameter list splits as `pre ++ p :: post` with every
parameter of `pre` Codable, `p` non-Codable, and at least one further
non-Codable parameter in `post` (so two or more offend), the check with
`diagnose = true` returns a problem with exactly one diagnostic, naming the
first offending parameter `p` — the remaining parameters, the result type
and the remote counterpart are never consulted. -/
theorem checkDistributedFunction_first_param_only (func : FuncDecl)
    (pre : List ParamDecl) (p : ParamDecl) (post : List ParamDecl)
    (hsplit : func.params = pre ++ p :: post)
    (hpre : ∀ q ∈ pre, q.failsCodable = false)
    (hp : p.failsCodable = true)
    (_hpost : 1 ≤ (post.filter ParamDecl.failsCodable).length) :
    checkDistributedFunction func true =
      Except.ok (true,
        [Diag.paramNotCodable p.argumentName p.interfaceType]) := by
  have hfind : func.params.find? ParamDecl.failsCodable = some p := by
    rw [hsplit]
    exact find_first_of_split ParamDecl.failsCodable pre p post hpre hp
  unfold checkDistributedFunction
  rw [hfind]
  rfl

/-- C4: when every parameter and the result type pass the Codable checks and
the parent is a class that is a distributed actor, the verdict is exactly
`remoteIsManual` of the `_remote` counterpart lookup: a non-synthesized
counterpart yields a problem with (under `diagnose`) a diagnostic naming the
`_remote_`-prefixed identifier; a missing or synthesized counterpart yields
no problem. -/
theorem checkDistributedFunction_remote_spec (func : FuncDecl)
    (diagnose : Bool) (c : ClassDeclData) (remoteFuncDecl : Option RemoteFunc)
    (hparent : func.parent = ParentDecl.classParent c remoteFuncDecl)
    (hactor : c.isDistributedActor = true)
    (hp : ∀ q ∈ func.params, q.failsCodable = false)
    (hres : resultPassesCodable func = true) :
    checkDistributedFunction func diagnose =
      Except.ok (remoteIsManual remoteFuncDecl,
        if remoteIsManual remoteFuncDecl && diagnose then
          [Diag.remoteFuncImplementedManually func.baseIdentifier
            ("_remote_" ++ func.baseIdentifier)]
        else []) := by
  have hfind : func.params.find? ParamDecl.failsCodable = none :=
    find_none_of_all_pass func hp
  have hres' : (!func.resultInterfaceType.isVoid &&
      (!func.resultInterfaceType.conformsDecodable ||
        !func.resultInterfaceType.conformsEncodable)) = false := by
    revert hres
    unfold resultPassesCodable
    cases func.resultInterfaceType.isVoid <;>
      cases func.resultInterfaceType.conformsDecodable <;>
      cases func.resultInterfaceType.conformsEncodable <;>
      decide
  unfold checkDistributedFunction
  rw [hfind, hparent]
  simp only [hres', Bool.false_eq_true, if_false, ite_false, hactor,
    Bool.not_true, Bool.false_eq_true]
  cases remoteFuncDecl with
  | some r =>
      cases hs : r.isSynthesized <;> simp [remoteIsManual, hs]
  | none => simp [remoteIsManual]

/-- C9: the verdict of `checkDistributedFunction` never depends on the
`distributed` attribute of its argument; the function instead asserts that
the parent is a class classified as a distributed actor, so when that
assertion condition holds the check never fails the assertion, and for a
Codable-clean function whose parent is not such a class the assertion
fails. -/
theorem checkDistributedFunction_no_attr_check (func : FuncDecl)
    (diagnose b : Bool) :
    (checkDistributedFunction (setDistributedAttr func b) diagnose =
        checkDistributedFunction func diagnose) ∧
    (distributedFuncAssert func = true →
      checkDistributedFunction func diagnose ≠ Except.error ()) ∧
    (distributedFuncAssert func = false →
      (∀ q ∈ func.params, q.failsCodable = false) →
      resultPassesCodable func = true →
      checkDistributedFunction func diagnose = Except.error ()) := by
  refine ⟨rfl, ?_, ?_⟩
  · intro ha
    unfold distributedFuncAssert at ha
    unfold checkDistributedFunction
    cases func.params.find? ParamDecl.failsCodable <;> dsimp only <;>
      (repeat' split) <;> simp_all
  · intro ha hp hres
    have hfind : func.params.find? ParamDecl.failsCodable = none :=
      find_none_of_all_pass func hp
    have hres' : (!func.resultInterfaceType.isVoid &&
        (!func.resultInterfaceType.conformsDecodable ||
          !func.resultInterfaceType.conformsEncodable)) = false := by
      revert hres
      unfold resultPassesCodable
      cases func.resultInterfaceType.isVoid <;>
        cases func.resultInterfaceType.conformsDecodable <;>
        cases func.resultInterfaceType.conformsEncodable <;>
        decide
    unfold distributedFuncAssert at ha
    unfold checkDistributedFunction
    rw [hfind]
    cases hpp : func.parent with
    | classParent c remoteFuncDecl =>
        rw [hpp] at ha
        have ha2 : c.isDistributedActor = false := ha
        simp [hres', ha2]
    | otherParent => simp [hres']

-- ==== Orchestrator claims ====================================================

theorem missingModule_not_in_ctor_diags (ctx : ASTContext)
    (decl : ClassDeclData) (ctor : CtorDecl) :
    Diag.missingModule ∉ checkDistributedActorConstructor ctx decl ctor := by
  unfold checkDistributedActorConstructor
  dsimp only
  (repeat' split) <;> simp

theorem missingModule_not_in_prop_diags (ctx : ASTContext)
    (decl : ClassDeclData) :
    Diag.missingModule ∉ checkDistributedActorProperties ctx decl := by
  unfold checkDistributedActorProperties
  simp only [List.mem_flatMap, not_exists, not_and]
  intro m hm
  cases m with
  | varMember id =>
      dsimp only
      split <;> simp
  | ctorMember ctor => simp
  | otherMember => simp

/-- C6: when the `_Distributed` module is not loaded, the orchestrator's
trace is exactly one missing-module diagnostic — no constructor check, no
property check and no synthesis happen; when it is loaded, no missing-module
diagnostic is emitted and every subsequent step runs: default-initializer
creation, the constructor check on every constructor member, the property
check, and implicit-member synthesis. -/
theorem checkDistributedActor_gate (ctx : ASTContext) (decl : ClassDeclData) :
    (ctx.distributedModuleLoaded = false →
      checkDistributedActor ctx decl = [Event.diag Diag.missingModule]) ∧
    (ctx.distributedModuleLoaded = true →
      checkDistributedActor ctx decl =
        Event.getDefaultInitializer ::
          ((decl.members.flatMap fun member =>
              match member with
              | Member.ctorMember ctor =>
                  (checkDistributedActorConstructor ctx decl ctor).map
                    Event.diag
              | _ => []) ++
            (checkDistributedActorProperties ctx decl).map Event.diag ++
            [Event.synthesizeImplicitMembers]) ∧
        Event.diag Diag.missingModule ∉ checkDistributedActor ctx decl) := by
  constructor
  · intro hm
    unfold checkDistributedActor DistributedModuleIsAvailableRequest.evaluate
    rw [hm]
    rfl
  · intro hm
    have htrace : checkDistributedActor ctx decl =
        Event.getDefaultInitializer ::
          ((decl.members.flatMap fun member =>
              match member with
              | Member.ctorMember ctor =>
                  (checkDistributedActorConstructor ctx decl ctor).map
                    Event.diag
              | _ => []) ++
            (checkDistributedActorProperties ctx decl).map Event.diag ++
            [Event.synthesizeImplicitMembers]) := by
      unfold checkDistributedActor DistributedModuleIsAvailableRequest.evaluate
      rw [hm]
      rfl
    refine ⟨htrace, ?_⟩
    rw [htrace]
    intro hmem
    rcases List.mem_cons.mp hmem with h | hmem2
    · exact Event.noConfusion h
    rcases List.mem_append.mp hmem2 with hAB | hC
    · rcases List.mem_append.mp hAB with hA | hB
      · obtain ⟨m, hm2, hmm⟩ := List.mem_flatMap.mp hA
        cases m with
        | ctorMember ctor =>
            obtain ⟨d, hd, hde⟩ := List.mem_map.mp hmm
            rw [Event.diag.inj hde] at hd
            exact missingModule_not_in_ctor_diags ctx decl ctor hd
        | varMember id => exact (List.not_mem_nil _ hmm).elim
        | otherMember => exact (List.not_mem_nil _ hmm).elim
      · obtain ⟨d, hd, hde⟩ := List.mem_map.mp hB
        rw [Event.diag.inj hde] at hd
        exact missingModule_not_in_prop_diags ctx decl hd
    · rcases List.mem_singleton.mp hC with h
      exact Event.noConfusion h

/-- C10: the property validator carries no distributed-actor guard — its
output is independent of the class's `distributed actor` marker — unlike the
constructor validator, which is a no-op on a class that is not a distributed
actor. -/
theorem checkDistributedActorProperties_no_guard (ctx : ASTContext)
    (decl : ClassDeclData) (b : Bool) (ctor : CtorDecl) :
    checkDistributedActorProperties ctx
        { decl with isExplicitDistributedActor := b } =
      checkDistributedActorProperties ctx decl ∧
    (decl.isDistributedActor = false →
      checkDistributedActorConstructor ctx decl ctor = []) := by
  refine ⟨rfl, ?_⟩
  intro h
  simp [checkDistributedActorConstructor, h]

-- ==== Concrete sample declarations for the witnesses =========================

/-- A void result type that is Codable-conformant. -/
def tyVoid : Ty := ⟨0, true, true, true, false⟩

/-- A non-void type conforming to Encodable and Decodable. -/
def tyCodable : Ty := ⟨1, false, true, true, false⟩

/-- A non-void type conforming to neither Encodable nor Decodable. -/
def tyBad : Ty := ⟨2, false, false, false, false⟩

/-- A type conforming to ActorTransport (and Codable). -/
def tyTransport : Ty := ⟨3, false, true, true, true⟩

/-- A class declared `distributed actor`, with no members. -/
def sampleClass : ClassDeclData := ⟨true, []⟩

/-- A class not declared `distributed actor`, with a property named `id`. -/
def plainClass : ClassDeclData := ⟨false, [Member.varMember "id"]⟩

/-- A designated initializer with no parameters. -/
def sampleCtor : CtorDecl := ⟨"init", true, []⟩

/-- An `ASTContext` in which the `_Distributed` module is not loaded. -/
def ctxNoModule : ASTContext := ⟨false, tyTransport, "actorTransport", "id"⟩

/-- An `ASTContext` in which the `_Distributed` module is loaded. -/
def ctxLoaded : ASTContext := ⟨true, tyTransport, "actorTransport", "id"⟩

/-- A distributed function with one Codable parameter and void result. -/
def f2a : FuncDecl :=
  ⟨"hello", [⟨"name", tyCodable⟩], tyVoid,
    ParentDecl.classParent sampleClass none, true⟩

/-- A distributed function with one Codable parameter and a non-Codable
result. -/
def f2b : FuncDecl :=
  ⟨"hello", [⟨"name", tyCodable⟩], tyBad,
    ParentDecl.classParent sampleClass none, true⟩

/-- A function whose second and third parameters are non-Codable. -/
def f3 : FuncDecl :=
  ⟨"f", [⟨"ok1", tyCodable⟩, ⟨"bad1", tyBad⟩, ⟨"bad2", tyBad⟩], tyVoid,
    ParentDecl.classParent sampleClass none, true⟩

/-- A Codable-clean function whose `_remote` counterpart is hand-written. -/
def f4 : FuncDecl :=
  ⟨"greet", [⟨"x", tyCodable⟩], tyCodable,
    ParentDecl.classParent sampleClass (some ⟨false⟩), true⟩

/-- A Codable-clean function whose parent is not a class declaration. -/
def f9 : FuncDecl := ⟨"f", [], tyVoid, ParentDecl.otherParent, false⟩

-- ==== Witnesses ==============================================================

/-- Witness for C2 at concrete inputs: the hypotheses hold for `f2a`/`f2b`,
the void branch is insensitive to the result conformance answers, and the
non-void non-Codable branch reports the result-type diagnostic. -/
theorem checkDistributedFunction_result_spec_witness :
    (∀ p ∈ f2a.params, p.failsCodable = false) ∧
    checkDistributedFunction (setResultConformance f2a false false) true =
      checkDistributedFunction f2a true ∧
    checkDistributedFunction f2b true =
      Except.ok (true, [Diag.resultNotCodable f2b.resultInterfaceType]) := by
  refine ⟨by decide, ?_, ?_⟩
  · exact (checkDistributedFunction_result_spec f2a true false false
      (by decide)).1 rfl
  · simpa using (checkDistributedFunction_result_spec f2b true false false
      (by decide)).2 rfl rfl

/-- Witness for C3 at a concrete input: `f3` has two non-Codable parameters
and its check emits exactly the diagnostic for the first one. -/
theorem checkDistributedFunction_first_param_only_witness :
    f3.params =
        [⟨"ok1", tyCodable⟩] ++ (⟨"bad1", tyBad⟩ : ParamDecl) ::
          [⟨"bad2", tyBad⟩] ∧
    checkDistributedFunction f3 true =
      Except.ok (true, [Diag.paramNotCodable "bad1" tyBad]) := by
  refine ⟨rfl, ?_⟩
  simpa using checkDistributedFunction_first_param_only f3
    [⟨"ok1", tyCodable⟩] ⟨"bad1", tyBad⟩ [⟨"bad2", tyBad⟩]
    rfl (by decide) (by decide) (by decide)

/-- Witness for C4 at a concrete input: `f4` is Codable-clean, its parent is
a distributed-actor class with a hand-written `_remote` counterpart, and the
check names the `_remote_`-prefixed identifier. -/
theorem checkDistributedFunction_remote_spec_witness :
    sampleClass.isDistributedActor = true ∧
    checkDistributedFunction f4 true =
      Except.ok (true,
        [Diag.remoteFuncImplementedManually "greet" "_remote_greet"]) := by
  refine ⟨rfl, ?_⟩
  simpa using checkDistributedFunction_remote_spec f4 true sampleClass
    (some ⟨false⟩) rfl rfl (by decide) rfl

/-- Witness for C6 at a concrete input: with the `_Distributed` module not
loaded, the orchestrator's trace is exactly one missing-module diagnostic. -/
theorem checkDistributedActor_gate_witness :
    ctxNoModule.distributedModuleLoaded = false ∧
    checkDistributedActor ctxNoModule sampleClass =
      [Event.diag Diag.missingModule] :=
  ⟨rfl, (checkDistributedActor_gate ctxNoModule sampleClass).1 rfl⟩

/-- Witness for C9 at a concrete input: `f9` is Codable-clean but its parent
is not a class, so the assertion condition is false and the check fails the
assertion; the verdict is insensitive to the `distributed` attribute. -/
theorem checkDistributedFunction_no_attr_check_witness :
    checkDistributedFunction (setDistributedAttr f9 true) false =
      checkDistributedFunction f9 false ∧
    distributedFuncAssert f9 = false ∧
    checkDistributedFunction f9 false = Except.error () := by
  refine ⟨(checkDistributedFunction_no_attr_check f9 false true).1, rfl, ?_⟩
  exact (checkDistributedFunction_no_attr_check f9 false true).2.2 rfl
    (by decide) rfl

/-- Witness for C10 at concrete inputs: the property check of `plainClass`
ignores its marker, while the constructor check is a no-op on it because it
is not a distributed actor. -/
theorem checkDistributedActorProperties_no_guard_witness :
    plainClass.isDistributedActor = false ∧
    checkDistributedActorProperties ctxLoaded
        { plainClass with isExplicitDistributedActor := true } =
      checkDistributedActorProperties ctxLoaded plainClass ∧
    checkDistributedActorConstructor ctxLoaded plainClass sampleCtor = [] :=
  ⟨rfl,
    (checkDistributedActorProperties_no_guard ctxLoaded plainClass true
      sampleCtor).1,
    (checkDistributedActorProperties_no_guard ctxLoaded plainClass true
      sampleCtor).2 rfl⟩
